import Mathlib

/-!
Shallow embedding of the HaloSitek payment/webhook reconciliation flow.

Source files embedded (JavaScript):
- `TransactionRepository` (markAsSuccess, markAsFailed, markExpiredTransactions,
  updateStatus, updateWithMidtransResponse, findByOrderId, findByPaymentToken,
  findExpired, validateForPayment)
- `ArchitectRepository` (activateAccount, findByIdOrFail)
- `PaymentService` (verifyWebhookSignature, processWebhookNotification)
- `WebhookService` (processMidtransWebhook, handleSuccessfulPayment,
  handleFailedPayment, handlePendingPayment, handleExpiredTransactions,
  verifyWebhookAuthenticity)
- `WebhookController.handleMidtransWebhook` and `ResponseFormatter`

Modelling conventions: `new Date()` is an explicit `now : Nat` argument;
the Prisma database is a `DB` record holding the transaction and architect
rows; a thrown error is an `Except.error`; e-mail sending is recorded as an
event in `DB.sentEmails` (in the source every send is wrapped in try/catch
and failures are swallowed, so only the attempt is observable).  SHA-512 is
abstracted as a parameter `sha512hex : String → String` since only the
equation `hash(orderId ++ statusCode ++ grossAmount ++ serverKey) == signature`
matters to control flow.
-/

namespace HaloSitek

/-- Transaction `status` column: PENDING | SUCCESS | FAILED | EXPIRED. -/
inductive TxStatus where
  | PENDING
  | SUCCESS
  | FAILED
  | EXPIRED
deriving DecidableEq, Repr

/-- JS `'PENDING'.toLowerCase()` etc., used by `validateForPayment`'s message. -/
def TxStatus.toLower : TxStatus → String
  | .PENDING => "pending"
  | .SUCCESS => "success"
  | .FAILED => "failed"
  | .EXPIRED => "expired"

/-- Architect `status` column: UNPAID | ACTIVE | BANNED. -/
inductive AccountStatus where
  | UNPAID
  | ACTIVE
  | BANNED
deriving DecidableEq, Repr

/-- Midtrans webhook notification body (fields referenced by the code).
A JS-`undefined` fraud_status is `none`; the other fields are strings,
with `""` standing for a missing/falsy value. -/
structure Notification where
  order_id : String
  transaction_status : String
  fraud_status : Option String
  payment_type : String
  gross_amount : String
  status_code : String
  signature_key : String
deriving DecidableEq, Repr

/-- A row of the Transaction table (fields the embedded code reads/writes). -/
structure Transaction where
  id : Nat
  architectId : Nat
  orderId : String
  paymentToken : String
  amount : Nat
  status : TxStatus
  paymentMethod : Option String
  paidAt : Option Nat
  expiredAt : Nat
  midtransResponse : Option Notification
  updatedAt : Nat
deriving DecidableEq, Repr

/-- A row of the Architect table (fields the embedded code reads/writes). -/
structure Architect where
  id : Nat
  status : AccountStatus
  email : String
deriving DecidableEq, Repr

/-- Domain errors thrown by the embedded code (app-errors.js). -/
inductive AppError where
  | notFound (msg : String)
  | payment (msg : String)
  | database (msg : String)
deriving DecidableEq, Repr

namespace TransactionRepository

/-- `prisma.transaction.findOne({ orderId })` — `findByOrderId`. -/
def findByOrderId (orderId : String) (txs : List Transaction) : Option Transaction :=
  txs.find? fun t => t.orderId = orderId

/-- `prisma.transaction.findOne({ paymentToken })` — `findByPaymentToken`. -/
def findByPaymentToken (paymentToken : String) (txs : List Transaction) :
    Option Transaction :=
  txs.find? fun t => t.paymentToken = paymentToken

/-- JS `paymentMethod || 'OTHER'` (both `undefined` and `''` are falsy). -/
def jsOrOther : String → String
  | "" => "OTHER"
  | s => s

/-- `markAsSuccess(orderId, paymentMethod, midtransResponse)`:
`prisma.transaction.update({ where: { orderId }, data: { status: 'SUCCESS',
paymentMethod: paymentMethod || 'OTHER', paidAt: new Date(), midtransResponse } })`.
Prisma `update` on a missing unique row raises P2025, surfaced as `NotFoundError`. -/
def markAsSuccess (now : Nat) (orderId : String) (paymentMethod : String)
    (midtransResponse : Option Notification) (txs : List Transaction) :
    Except AppError (List Transaction) :=
  if txs.any fun t => t.orderId = orderId then
    .ok <| txs.map fun t =>
      if t.orderId = orderId then
        { t with status := .SUCCESS, paymentMethod := some (jsOrOther paymentMethod),
                 paidAt := some now, midtransResponse := midtransResponse }
      else t
  else
    .error (.notFound ("Transaction with order ID " ++ orderId ++ " not found"))

/-- `markAsFailed(orderId, midtransResponse)`:
`prisma.transaction.update({ where: { orderId }, data: { status: 'FAILED',
midtransResponse } })`; P2025 → `NotFoundError`. -/
def markAsFailed (orderId : String) (midtransResponse : Option Notification)
    (txs : List Transaction) : Except AppError (List Transaction) :=
  if txs.any fun t => t.orderId = orderId then
    .ok <| txs.map fun t =>
      if t.orderId = orderId then
        { t with status := .FAILED, midtransResponse := midtransResponse }
      else t
  else
    .error (.notFound ("Transaction with order ID " ++ orderId ++ " not found"))

/-- `updateStatus(id, status)`: builds `updateData = { status }`, adds
`paidAt = new Date()` when the new status is SUCCESS, then `this.update(id, updateData)`
(base-repository `prisma.update({ where: { id }, data })`; P2025 → `NotFoundError`). -/
def updateStatus (now : Nat) (id : Nat) (status : TxStatus) (txs : List Transaction) :
    Except AppError (List Transaction) :=
  if txs.any fun t => t.id = id then
    .ok <| txs.map fun t =>
      if t.id = id then
        if status = .SUCCESS then { t with status := status, paidAt := some now }
        else { t with status := status }
      else t
  else
    .error (.notFound "Transaction not found")

/-- `updateWithMidtransResponse(orderId, midtransResponse)`:
`prisma.transaction.update({ where: { orderId }, data: { midtransResponse,
updatedAt: new Date() } })`; P2025 → `NotFoundError`. -/
def updateWithMidtransResponse (now : Nat) (orderId : String)
    (midtransResponse : Option Notification) (txs : List Transaction) :
    Except AppError (List Transaction) :=
  if txs.any fun t => t.orderId = orderId then
    .ok <| txs.map fun t =>
      if t.orderId = orderId then
        { t with midtransResponse := midtransResponse, updatedAt := now }
      else t
  else
    .error (.notFound ("Transaction with order ID " ++ orderId ++ " not found"))

/-- `findExpired()`: `findMany({ where: { status: 'PENDING',
expiredAt: { lt: new Date() } } })`. -/
def findExpired (now : Nat) (txs : List Transaction) : List Transaction :=
  txs.filter fun t => t.status = .PENDING ∧ t.expiredAt < now

/-- `markExpiredTransactions()`: `updateMany({ where: { status: 'PENDING',
expiredAt: { lt: new Date() } }, data: { status: 'EXPIRED' } })`; returns the
updated table together with Prisma's `{ count }` of affected rows. -/
def markExpiredTransactions (now : Nat) (txs : List Transaction) :
    List Transaction × Nat :=
  (txs.map fun t =>
      if t.status = .PENDING ∧ t.expiredAt < now then { t with status := .EXPIRED }
      else t,
   (txs.filter fun t => t.status = .PENDING ∧ t.expiredAt < now).length)

/-- Result shape of `validateForPayment`. -/
structure ValidationResult where
  valid : Bool
  message : String
  transaction : Option Transaction
deriving DecidableEq, Repr

/-- `validateForPayment(paymentToken)`: not found → invalid "Payment link not
found"; `status !== 'PENDING'` → invalid "Payment already {status.toLowerCase()}";
`new Date() > expiredAt` → invalid "Payment link has expired"; otherwise valid. -/
def validateForPayment (now : Nat) (paymentToken : String) (txs : List Transaction) :
    ValidationResult :=
  match findByPaymentToken paymentToken txs with
  | none =>
      { valid := false, message := "Payment link not found", transaction := none }
  | some transaction =>
      if transaction.status ≠ .PENDING then
        { valid := false,
          message := "Payment already " ++ transaction.status.toLower,
          transaction := some transaction }
      else if transaction.expiredAt < now then
        { valid := false, message := "Payment link has expired",
          transaction := some transaction }
      else
        { valid := true, message := "Valid payment link",
          transaction := some transaction }

end TransactionRepository

namespace ArchitectRepository

/-- `activateAccount(id)`: `this.update(id, { status: 'ACTIVE' })` — an
unconditional base-repository update; P2025 → `NotFoundError`. -/
def activateAccount (id : Nat) (archs : List Architect) :
    Except AppError (List Architect) :=
  if archs.any fun a => a.id = id then
    .ok <| archs.map fun a => if a.id = id then { a with status := .ACTIVE } else a
  else
    .error (.notFound "Architect not found")

/-- `findByIdOrFail(id)`: point lookup, `NotFoundError` when absent. -/
def findByIdOrFail (id : Nat) (archs : List Architect) : Except AppError Architect :=
  match archs.find? (fun a => a.id = id) with
  | some a => .ok a
  | none => .error (.notFound "Architect not found")

end ArchitectRepository

namespace PaymentService

/-- `verifyWebhookSignature(orderId, statusCode, grossAmount, signatureKey)`:
recompute `SHA512(order_id + status_code + gross_amount + server_key)` (hex)
and compare to the received signature. -/
def verifyWebhookSignature (sha512hex : String → String) (serverKey : String)
    (orderId statusCode grossAmount signatureKey : String) : Bool :=
  sha512hex (orderId ++ statusCode ++ grossAmount ++ serverKey) = signatureKey

/-- Result shape of `processWebhookNotification`. -/
structure ProcessedData where
  orderId : String
  status : TxStatus
  shouldActivate : Bool
  paymentType : String
  transactionStatus : String
  fraudStatus : Option String
  rawNotification : Notification
deriving DecidableEq, Repr

/-- `processWebhookNotification(notification)`: verify the signature (throw
`PaymentError` if invalid), then map the gateway vocabulary to an internal
status via the source's if/else chain, defaulting to PENDING with no
activation. -/
def processWebhookNotification (sha512hex : String → String) (serverKey : String)
    (n : Notification) : Except AppError ProcessedData :=
  if verifyWebhookSignature sha512hex serverKey
       n.order_id n.status_code n.gross_amount n.signature_key then
    let fs : TxStatus × Bool :=
      if n.transaction_status = "capture" then
        if n.fraud_status = some "accept" then (.SUCCESS, true)
        else if n.fraud_status = some "challenge" then (.PENDING, false)
        else (.FAILED, false)
      else if n.transaction_status = "settlement" then (.SUCCESS, true)
      else if n.transaction_status = "cancel" ∨ n.transaction_status = "deny" ∨
              n.transaction_status = "expire" then (.FAILED, false)
      else if n.transaction_status = "pending" then (.PENDING, false)
      else (.PENDING, false)
    .ok { orderId := n.order_id, status := fs.1, shouldActivate := fs.2,
          paymentType := n.payment_type, transactionStatus := n.transaction_status,
          fraudStatus := n.fraud_status, rawNotification := n }
  else
    .error (.payment "Invalid webhook signature")

end PaymentService

/-- Observable e-mail side effects (every send in the source is inside its own
try/catch whose failure is only logged, so the attempt is what is modelled). -/
inductive EmailEvent where
  | welcome (architect : Architect)
  | paymentFailed (architect : Architect) (orderId : String)
  | paymentExpired (architect : Architect) (orderId : String)
deriving DecidableEq, Repr

/-- The persistent state the webhook flow reads and writes: the Transaction
table, the Architect table, and the log of attempted e-mails. -/
structure DB where
  transactions : List Transaction
  architects : List Architect
  sentEmails : List EmailEvent
deriving DecidableEq, Repr

namespace WebhookService

open TransactionRepository ArchitectRepository PaymentService

/-- Result shape of `processMidtransWebhook` (the short-circuit return sets
`alreadyProcessed`; the normal return carries orderId and status). -/
structure WebhookResult where
  success : Bool
  message : String
  alreadyProcessed : Bool
  orderId : Option String
  status : Option TxStatus
deriving DecidableEq, Repr

/-- `handleSuccessfulPayment(transaction, processedData)`: mark the transaction
SUCCESS (payment method upper-cased), activate the architect account, fetch the
architect, attempt the welcome e-mail (failure swallowed). Errors from the
repository calls are rethrown. -/
def handleSuccessfulPayment (now : Nat) (transaction : Transaction)
    (pd : ProcessedData) (db : DB) : Except AppError Unit × DB :=
  match markAsSuccess now pd.orderId pd.paymentType.toUpper
          (some pd.rawNotification) db.transactions with
  | .error e => (.error e, db)
  | .ok txs =>
    let db := { db with transactions := txs }
    match activateAccount transaction.architectId db.architects with
    | .error e => (.error e, db)
    | .ok archs =>
      let db := { db with architects := archs }
      match findByIdOrFail transaction.architectId db.architects with
      | .error e => (.error e, db)
      | .ok architect =>
        (.ok (), { db with sentEmails := db.sentEmails ++ [.welcome architect] })

/-- `handleFailedPayment(transaction, processedData)`: mark the transaction
FAILED, fetch the architect, attempt the payment-failed e-mail (failure
swallowed). Errors from the repository calls are rethrown. -/
def handleFailedPayment (transaction : Transaction) (pd : ProcessedData)
    (db : DB) : Except AppError Unit × DB :=
  match markAsFailed pd.orderId (some pd.rawNotification) db.transactions with
  | .error e => (.error e, db)
  | .ok txs =>
    let db := { db with transactions := txs }
    match findByIdOrFail transaction.architectId db.architects with
    | .error e => (.error e, db)
    | .ok architect =>
      (.ok (),
       { db with sentEmails := db.sentEmails ++ [.paymentFailed architect pd.orderId] })

/-- `handlePendingPayment(transaction, processedData)`: just
`updateStatus(transaction.id, 'PENDING')`, no e-mail. -/
def handlePendingPayment (now : Nat) (transaction : Transaction)
    (_pd : ProcessedData) (db : DB) : Except AppError Unit × DB :=
  match updateStatus now transaction.id .PENDING db.transactions with
  | .error e => (.error e, db)
  | .ok txs => (.ok (), { db with transactions := txs })

/-- `processMidtransWebhook(notification)` — the reconciler, steps as in the
source: (1) `processWebhookNotification` (verifies the signature, throws on an
invalid one); (2) `findByOrderId`, `NotFoundError` when absent; (3) if the
stored status is already SUCCESS, return `{ alreadyProcessed: true }` with no
writes; (4) `updateWithMidtransResponse` persists the raw payload; (5) branch
on the mapped status (success / failed / pending handlers); (6) return the
result. Thrown errors propagate to the caller with the writes made so far. -/
def processMidtransWebhook (sha512hex : String → String) (serverKey : String)
    (now : Nat) (n : Notification) (db : DB) :
    Except AppError WebhookResult × DB :=
  match processWebhookNotification sha512hex serverKey n with
  | .error e => (.error e, db)
  | .ok pd =>
    match findByOrderId pd.orderId db.transactions with
    | none =>
        (.error (.notFound ("Transaction with order ID " ++ pd.orderId ++ " not found")),
         db)
    | some transaction =>
      if transaction.status = .SUCCESS then
        (.ok { success := true, message := "Transaction already processed",
               alreadyProcessed := true, orderId := none, status := none }, db)
      else
        match updateWithMidtransResponse now pd.orderId
                (some pd.rawNotification) db.transactions with
        | .error e => (.error e, db)
        | .ok txs =>
          let db := { db with transactions := txs }
          let step5 : Except AppError Unit × DB :=
            if pd.shouldActivate ∧ pd.status = .SUCCESS then
              handleSuccessfulPayment now transaction pd db
            else if pd.status = .FAILED then
              handleFailedPayment transaction pd db
            else if pd.status = .PENDING then
              handlePendingPayment now transaction pd db
            else (.ok (), db)
          match step5 with
          | (.error e, db) => (.error e, db)
          | (.ok _, db) =>
              (.ok { success := true, message := "Webhook processed successfully",
                     alreadyProcessed := false, orderId := some pd.orderId,
                     status := some pd.status }, db)

/-- Result shape of `handleExpiredTransactions`. -/
structure SweepResult where
  success : Bool
  message : String
  count : Nat
deriving DecidableEq, Repr

/-- `handleExpiredTransactions()` — the sweep: read the expired-pending rows
(`findExpired`, with their architects); if none, return count 0; else
`markExpiredTransactions` (the bulk update) and attempt one expired e-mail per
previously-read row whose architect relation is present (each in its own
try/catch). -/
def handleExpiredTransactions (now : Nat) (db : DB) : SweepResult × DB :=
  let expiredTransactions := findExpired now db.transactions
  if expiredTransactions.length = 0 then
    ({ success := true, message := "No expired transactions found", count := 0 }, db)
  else
    let result := markExpiredTransactions now db.transactions
    let emails := expiredTransactions.filterMap fun t =>
      (db.architects.find? fun a => a.id = t.architectId).map
        fun a => EmailEvent.paymentExpired a t.orderId
    ({ success := true,
       message := "Processed " ++ toString result.2 ++ " expired transactions",
       count := result.2 },
     { db with transactions := result.1, sentEmails := db.sentEmails ++ emails })

/-- `verifyWebhookAuthenticity(notification)`: reject when any of order_id,
status_code, gross_amount, signature_key is missing/falsy, else delegate to
`paymentService.verifyWebhookSignature`. -/
def verifyWebhookAuthenticity (sha512hex : String → String) (serverKey : String)
    (n : Notification) : Bool :=
  if n.order_id = "" ∨ n.status_code = "" ∨ n.gross_amount = "" ∨
     n.signature_key = "" then
    false
  else
    verifyWebhookSignature sha512hex serverKey
      n.order_id n.status_code n.gross_amount n.signature_key

end WebhookService

/-- The HTTP response the webhook controller writes (status code from
ResponseFormatter: `success` → 200, `badRequest` → 400). -/
structure HttpResponse where
  status : Nat
  success : Bool
  message : String
deriving DecidableEq, Repr

namespace WebhookController

open WebhookService

/-- `handleMidtransWebhook(req, res)`: verify authenticity — if not authentic,
`ResponseFormatter.badRequest` (400); else run `processMidtransWebhook` and
answer `ResponseFormatter.success` (200) with its message; any thrown error is
caught and still answered with `ResponseFormatter.success` (200,
"Webhook received but processing failed"). -/
def handleMidtransWebhook (sha512hex : String → String) (serverKey : String)
    (now : Nat) (body : Notification) (db : DB) : HttpResponse × DB :=
  if ¬ verifyWebhookAuthenticity sha512hex serverKey body then
    ({ status := 400, success := false, message := "Invalid webhook signature" }, db)
  else
    match processMidtransWebhook sha512hex serverKey now body db with
    | (.ok result, db) =>
        ({ status := 200, success := true, message := result.message }, db)
    | (.error _, db) =>
        ({ status := 200, success := true,
           message := "Webhook received but processing failed" }, db)

end WebhookController

/-! ### Generic list lemmas used to reason about Prisma-style bulk updates -/

theorem mem_zip_map {α : Type _} (f : α → α) (l : List α) :
    ∀ p ∈ l.zip (l.map f), p.2 = f p.1 := by
  induction l with
  | nil => intro p hp; simp at hp
  | cons a l ih =>
      intro p hp
      simp only [List.map_cons, List.zip_cons_cons, List.mem_cons] at hp
      rcases hp with rfl | hp
      · rfl
      · exact ih p hp

theorem mem_zip_self {α : Type _} (l : List α) :
    ∀ p ∈ l.zip l, p.2 = p.1 := by
  have h := mem_zip_map (fun a => a) l
  simpa using h

theorem any_of_find?_eq_some {α : Type _} {p : α → Bool} {l : List α} {a : α}
    (h : l.find? p = some a) : l.any p = true :=
  List.any_eq_true.2 ⟨a, List.mem_of_find?_eq_some h, List.find?_some h⟩

theorem find?_map_of_pred_comm {α : Type _} (h : α → α) (p : α → Bool)
    (hp : ∀ a, p (h a) = p a) (l : List α) :
    (l.map h).find? p = (l.find? p).map h := by
  induction l with
  | nil => rfl
  | cons a l ih =>
      by_cases hpa : p a = true
      · rw [List.map_cons, List.find?_cons_of_pos _ (by rw [hp]; exact hpa),
            List.find?_cons_of_pos _ hpa]
        rfl
      · rw [List.map_cons, List.find?_cons_of_neg _ (by rw [hp]; simpa using hpa),
            List.find?_cons_of_neg _ (by simpa using hpa), ih]

/-! ### Concrete rows used by the witnesses and counterexamples -/

def txPending : Transaction :=
  { id := 1, architectId := 1, orderId := "ORD-1", paymentToken := "tok-1",
    amount := 500000, status := .PENDING, paymentMethod := none, paidAt := none,
    expiredAt := 100, midtransResponse := none, updatedAt := 0 }

def txFailed : Transaction :=
  { txPending with
    id := 2, architectId := 2, orderId := "ORD-2",
    paymentToken := "tok-2", status := .FAILED }

def txSuccess : Transaction :=
  { txPending with
    id := 3, architectId := 3, orderId := "ORD-3",
    paymentToken := "tok-3", status := .SUCCESS, paidAt := some 50,
    paymentMethod := some "BANK_TRANSFER" }

def txFresh : Transaction :=
  { txPending with
    id := 5, architectId := 5, orderId := "ORD-5",
    paymentToken := "tok-5", expiredAt := 1000 }

def archBanned : Architect :=
  { id := 2, status := .BANNED, email := "banned@example.com" }

def archUnpaid : Architect :=
  { id := 1, status := .UNPAID, email := "unpaid@example.com" }

def sampleDB : DB :=
  { transactions := [txPending, txFailed, txSuccess, txFresh],
    architects := [archUnpaid, archBanned],
    sentEmails := [] }

/-! ### Claim theorems -/

open TransactionRepository ArchitectRepository PaymentService WebhookService

/-- C1 counterexample: the claim is false as stated — `txFailed` is in the
terminal state FAILED, yet a subsequent `markAsSuccess` call on its orderId
changes its status to SUCCESS. -/
theorem markAsSuccess_breaks_terminal_absorption :
    txFailed.status = TxStatus.FAILED
  ∧ (markAsSuccess 10 "ORD-2" "BANK" none [txFailed]).map
        (fun ts => ts.map (fun t => t.status)) = .ok [TxStatus.SUCCESS] :=
  ⟨rfl, rfl⟩

/-- C1 (amended): terminal absorption holds for the expiry sweep only — the
bulk update is guarded by `status = PENDING`, so a row whose status is not
PENDING is left unchanged by `markExpiredTransactions`; but `markAsSuccess`
and `markAsFailed` write `status` unconditionally: on a row matching the
orderId they set SUCCESS (resp. FAILED) whatever the current status, so
PENDING is not the only state from which those two calls cause a transition. -/
theorem terminal_absorption_amended :
    (∀ (now : Nat) (txs : List Transaction),
        ∀ p ∈ txs.zip (markExpiredTransactions now txs).1,
          p.1.status ≠ .PENDING → p.2 = p.1)
  ∧ (∀ (now : Nat) (orderId pm : String) (resp : Option Notification)
        (txs txs' : List Transaction),
        markAsSuccess now orderId pm resp txs = .ok txs' →
        ∀ p ∈ txs.zip txs', p.1.orderId = orderId → p.2.status = .SUCCESS)
  ∧ (∀ (orderId : String) (resp : Option Notification)
        (txs txs' : List Transaction),
        markAsFailed orderId resp txs = .ok txs' →
        ∀ p ∈ txs.zip txs', p.1.orderId = orderId → p.2.status = .FAILED) := by
  refine ⟨?_, ?_, ?_⟩
  · intro now txs p hp hterm
    have h2 := mem_zip_map _ txs p hp
    rw [h2, if_neg]
    intro hcon
    exact hterm hcon.1
  · intro now orderId pm resp txs txs' h p hp hord
    unfold markAsSuccess at h
    split at h
    · simp only [Except.ok.injEq] at h
      subst h
      have h2 := mem_zip_map _ txs p hp
      rw [h2, if_pos hord]
    · simp at h
  · intro orderId resp txs txs' h p hp hord
    unfold markAsFailed at h
    split at h
    · simp only [Except.ok.injEq] at h
      subst h
      have h2 := mem_zip_map _ txs p hp
      rw [h2, if_pos hord]
    · simp at h

/-- The row `markAsSuccess 10 "ORD-2" "BANK" none` produces from `txFailed`. -/
def txFailedAsSuccess : Transaction :=
  { txFailed with
    status := TxStatus.SUCCESS, paymentMethod := some "BANK",
    paidAt := some 10, midtransResponse := none }

/-- The row a repeat `markAsSuccess 20 "ORD-3" "CARD" none` produces from
`txSuccess`. -/
def txSuccessRepaid : Transaction :=
  { txSuccess with
    status := TxStatus.SUCCESS, paymentMethod := some "CARD",
    paidAt := some 20, midtransResponse := none }

/-- C1 witness: the amended theorem applied at concrete inputs — the sweep at
time 200 leaves the FAILED row unchanged, and `markAsSuccess` flips the FAILED
row to SUCCESS. -/
theorem terminal_absorption_amended_witness :
    (txFailed, txFailed).2 = txFailed
  ∧ ((txFailed, txFailedAsSuccess) : Transaction × Transaction).2.status
      = TxStatus.SUCCESS :=
  ⟨terminal_absorption_amended.1 200 [txFailed] (txFailed, txFailed)
      (by decide) (by decide),
   terminal_absorption_amended.2.1 10 "ORD-2" "BANK" none [txFailed]
      [txFailedAsSuccess] rfl (txFailed, txFailedAsSuccess)
      (by decide) (by decide)⟩

/-- C5 counterexample: the claim is false as stated — calling `markAsSuccess`
twice on orderId "ORD-1" (at times 10 then 20) leaves `paidAt = 20`, the
second call's value, not the first call's 10. -/
theorem markAsSuccess_second_call_overwrites_paidAt :
    (markAsSuccess 10 "ORD-1" "BANK" none [txPending]).map
        (fun ts => ts.map (fun t => t.paidAt)) = .ok [some 10]
  ∧ ((markAsSuccess 10 "ORD-1" "BANK" none [txPending]).bind
        (markAsSuccess 20 "ORD-1" "BANK" none)).map
        (fun ts => ts.map (fun t => t.paidAt)) = .ok [some 20] :=
  ⟨rfl, rfl⟩

/-- C5 (amended): `markAsSuccess` sets `paidAt` to its own call time
unconditionally (last write wins): after any successful call, the matching
row's `paidAt` is that call's `now`, so a repeat call on an already-SUCCESS
transaction overwrites the `paidAt` the first call set. -/
theorem markAsSuccess_paidAt_last_write_wins :
    ∀ (now : Nat) (orderId pm : String) (resp : Option Notification)
      (txs txs' : List Transaction),
      markAsSuccess now orderId pm resp txs = .ok txs' →
      ∀ p ∈ txs.zip txs', p.1.orderId = orderId → p.2.paidAt = some now := by
  intro now orderId pm resp txs txs' h p hp hord
  unfold markAsSuccess at h
  split at h
  · simp only [Except.ok.injEq] at h
    subst h
    have h2 := mem_zip_map _ txs p hp
    rw [h2, if_pos hord]
  · simp at h

/-- C5 witness: the amended theorem applied at a repeat call on an
already-SUCCESS row (paidAt 50): afterwards `paidAt = 20`, the repeat call's
time. -/
theorem markAsSuccess_paidAt_last_write_wins_witness :
    ((txSuccess, txSuccessRepaid) : Transaction × Transaction).2.paidAt
      = some 20 :=
  markAsSuccess_paidAt_last_write_wins 20 "ORD-3" "CARD" none [txSuccess]
    [txSuccessRepaid] rfl (txSuccess, txSuccessRepaid) (by decide) (by decide)

/-- C8 counterexample: the claim is false as stated — `archBanned` has status
BANNED, yet `activateAccount` applies the activation and its status becomes
ACTIVE. -/
theorem activateAccount_reactivates_banned :
    archBanned.status = AccountStatus.BANNED
  ∧ (activateAccount 2 [archBanned]).map
        (fun as => as.map (fun a => a.status)) = .ok [AccountStatus.ACTIVE] :=
  ⟨rfl, rfl⟩

/-- C8 (amended): `activateAccount` is an unconditional update — for every
existing account matching the id, including one whose current status is
BANNED, the activation is applied and the resulting status is ACTIVE; nothing
in the code refuses activation for BANNED accounts. -/
theorem activateAccount_unconditionally_activates :
    ∀ (id : Nat) (archs archs' : List Architect),
      activateAccount id archs = .ok archs' →
      ∀ p ∈ archs.zip archs', p.1.id = id → p.2.status = .ACTIVE := by
  intro id archs archs' h p hp hid
  unfold activateAccount at h
  split at h
  · simp only [Except.ok.injEq] at h
    subst h
    have h2 := mem_zip_map _ archs p hp
    rw [h2, if_pos hid]
  · simp at h

/-- A validly signed settlement notification for order "ORD-1" under server
key "KEY" and the identity stand-in for SHA-512. -/
def nSettle : Notification :=
  { order_id := "ORD-1", transaction_status := "settlement", fraud_status := none,
    payment_type := "bank_transfer", gross_amount := "500000.00",
    status_code := "200", signature_key := "ORD-1200500000.00KEY" }

/-- A notification whose signature does not match the recomputed hash. -/
def nBadSig : Notification :=
  { order_id := "ORD-1", transaction_status := "settlement", fraud_status := none,
    payment_type := "bank_transfer", gross_amount := "500000.00",
    status_code := "200", signature_key := "WRONG" }

/-- A validly signed notification for the already-SUCCESS order "ORD-3". -/
def nForSuccess : Notification :=
  { order_id := "ORD-3", transaction_status := "settlement", fraud_status := none,
    payment_type := "bank_transfer", gross_amount := "500000.00",
    status_code := "200", signature_key := "ORD-3200500000.00KEY" }

/-- C2: for every validly-signed notification, `processWebhookNotification`
maps the gateway vocabulary to the internal status exactly per the spec table:
capture/accept → SUCCESS with activation; capture/challenge → PENDING;
capture/other → FAILED; settlement → SUCCESS with activation;
deny, cancel or expire → FAILED; pending → PENDING; anything else → the
default PENDING with no activation. -/
theorem processWebhookNotification_mapping
    (sha512hex : String → String) (serverKey : String) (n : Notification)
    (hsig : verifyWebhookSignature sha512hex serverKey
              n.order_id n.status_code n.gross_amount n.signature_key = true) :
    (n.transaction_status = "capture" → n.fraud_status = some "accept" →
       (processWebhookNotification sha512hex serverKey n).map
         (fun pd => (pd.status, pd.shouldActivate)) = .ok (.SUCCESS, true))
  ∧ (n.transaction_status = "capture" → n.fraud_status = some "challenge" →
       (processWebhookNotification sha512hex serverKey n).map
         (fun pd => (pd.status, pd.shouldActivate)) = .ok (.PENDING, false))
  ∧ (n.transaction_status = "capture" → n.fraud_status ≠ some "accept" →
       n.fraud_status ≠ some "challenge" →
       (processWebhookNotification sha512hex serverKey n).map
         (fun pd => (pd.status, pd.shouldActivate)) = .ok (.FAILED, false))
  ∧ (n.transaction_status = "settlement" →
       (processWebhookNotification sha512hex serverKey n).map
         (fun pd => (pd.status, pd.shouldActivate)) = .ok (.SUCCESS, true))
  ∧ (n.transaction_status = "deny" ∨ n.transaction_status = "cancel" ∨
       n.transaction_status = "expire" →
       (processWebhookNotification sha512hex serverKey n).map
         (fun pd => (pd.status, pd.shouldActivate)) = .ok (.FAILED, false))
  ∧ (n.transaction_status = "pending" →
       (processWebhookNotification sha512hex serverKey n).map
         (fun pd => (pd.status, pd.shouldActivate)) = .ok (.PENDING, false))
  ∧ (n.transaction_status ≠ "capture" → n.transaction_status ≠ "settlement" →
       n.transaction_status ≠ "cancel" → n.transaction_status ≠ "deny" →
       n.transaction_status ≠ "expire" → n.transaction_status ≠ "pending" →
       (processWebhookNotification sha512hex serverKey n).map
         (fun pd => (pd.status, pd.shouldActivate)) = .ok (.PENDING, false)) := by
  refine ⟨?_, ?_, ?_, ?_, ?_, ?_, ?_⟩
  · intro h1 h2
    simp [processWebhookNotification, Except.map, hsig, h1, h2]
  · intro h1 h2
    simp [processWebhookNotification, Except.map, hsig, h1, h2]
  · intro h1 h2 h3
    simp [processWebhookNotification, Except.map, hsig, h1, h2, h3]
  · intro h1
    simp [processWebhookNotification, Except.map, hsig, h1]
  · rintro (h1 | h1 | h1) <;> simp [processWebhookNotification, Except.map, hsig, h1]
  · intro h1
    simp [processWebhookNotification, Except.map, hsig, h1]
  · intro h1 h2 h3 h4 h5 h6
    simp [processWebhookNotification, Except.map, hsig, h1, h2, h3, h4, h5, h6]

/-- C2 witness: the mapping theorem applied to a concrete validly-signed
settlement notification — its internal status is SUCCESS with activation. -/
theorem processWebhookNotification_mapping_witness :
    (processWebhookNotification (fun s => s) "KEY" nSettle).map
      (fun pd => (pd.status, pd.shouldActivate)) = .ok (TxStatus.SUCCESS, true) :=
  (processWebhookNotification_mapping (fun s => s) "KEY" nSettle
      (by decide)).2.2.2.1 rfl

/-- C3: a notification whose signature_key differs from the hex SHA-512 of
`orderId ++ statusCode ++ grossAmount ++ serverKey` makes the reconciler throw
a PaymentError and leave the database (transactions, architects, e-mail log)
exactly as it was — zero Transaction Store writes, no account change. -/
theorem invalid_signature_rejected_no_writes
    (sha512hex : String → String) (serverKey : String) (now : Nat)
    (n : Notification) (db : DB)
    (hbad : sha512hex (n.order_id ++ n.status_code ++ n.gross_amount ++ serverKey)
              ≠ n.signature_key) :
    processMidtransWebhook sha512hex serverKey now n db
      = (.error (.payment "Invalid webhook signature"), db) := by
  have hfalse : verifyWebhookSignature sha512hex serverKey
      n.order_id n.status_code n.gross_amount n.signature_key = false := by
    simp [verifyWebhookSignature, hbad]
  simp [processMidtransWebhook, processWebhookNotification, hfalse]

/-- C3 witness: the rejection theorem applied to a concrete bad-signature
notification against the sample database. -/
theorem invalid_signature_rejected_no_writes_witness :
    processMidtransWebhook (fun s => s) "KEY" 7 nBadSig sampleDB
      = (.error (.payment "Invalid webhook signature"), sampleDB) :=
  invalid_signature_rejected_no_writes (fun s => s) "KEY" 7 nBadSig sampleDB
    (by decide)

/-- C4: when the transaction looked up by the notification's orderId is
already SUCCESS, `processMidtransWebhook` returns the "already processed"
result and leaves the database exactly as it was: no raw-payload write, no
status change, no account activation, no e-mail attempt. -/
theorem already_success_short_circuits
    (sha512hex : String → String) (serverKey : String) (now : Nat)
    (n : Notification) (db : DB) (tx : Transaction)
    (hsig : verifyWebhookSignature sha512hex serverKey
              n.order_id n.status_code n.gross_amount n.signature_key = true)
    (hfind : findByOrderId n.order_id db.transactions = some tx)
    (hsucc : tx.status = .SUCCESS) :
    processMidtransWebhook sha512hex serverKey now n db
      = (.ok { success := true, message := "Transaction already processed",
               alreadyProcessed := true, orderId := none, status := none },
         db) := by
  simp [processMidtransWebhook, processWebhookNotification, hsig, hfind, hsucc]

/-- C4 witness: the short-circuit theorem applied to a validly-signed
settlement notification for the already-SUCCESS sample order "ORD-3". -/
theorem already_success_short_circuits_witness :
    processMidtransWebhook (fun s => s) "KEY" 7 nForSuccess sampleDB
      = (.ok { success := true, message := "Transaction already processed",
               alreadyProcessed := true, orderId := none, status := none },
         sampleDB) :=
  already_success_short_circuits (fun s => s) "KEY" 7 nForSuccess sampleDB
    txSuccess (by decide) rfl rfl

/-- C7: `validateForPayment` applies its three checks in priority order — not
found, then non-PENDING status, then expiry (`now > expiredAt`, so a
still-PENDING transaction is refused at any time past `expiredAt` even before
the sweeper runs) — each with a distinct human-readable message, and returns
valid otherwise. -/
theorem validateForPayment_priority
    (now : Nat) (paymentToken : String) (txs : List Transaction) :
    (findByPaymentToken paymentToken txs = none →
       validateForPayment now paymentToken txs
         = { valid := false, message := "Payment link not found",
             transaction := none })
  ∧ (∀ t, findByPaymentToken paymentToken txs = some t → t.status ≠ .PENDING →
       validateForPayment now paymentToken txs
         = { valid := false, message := "Payment already " ++ t.status.toLower,
             transaction := some t })
  ∧ (∀ t, findByPaymentToken paymentToken txs = some t → t.status = .PENDING →
       t.expiredAt < now →
       validateForPayment now paymentToken txs
         = { valid := false, message := "Payment link has expired",
             transaction := some t })
  ∧ (∀ t, findByPaymentToken paymentToken txs = some t → t.status = .PENDING →
       ¬ t.expiredAt < now →
       validateForPayment now paymentToken txs
         = { valid := true, message := "Valid payment link",
             transaction := some t })
  ∧ (∀ s : TxStatus, s ≠ .PENDING →
       "Payment already " ++ s.toLower ≠ "Payment link not found"
       ∧ "Payment already " ++ s.toLower ≠ "Payment link has expired"
       ∧ "Payment link not found" ≠ "Payment link has expired") := by
  refine ⟨?_, ?_, ?_, ?_, ?_⟩
  · intro h
    simp [validateForPayment, h]
  · intro t hfind hstat
    simp [validateForPayment, hfind, hstat]
  · intro t hfind hstat hexp
    simp [validateForPayment, hfind, hstat, hexp]
  · intro t hfind hstat hexp
    simp [validateForPayment, hfind, hstat, hexp]
  · intro s hs
    cases s with
    | PENDING => exact absurd rfl hs
    | SUCCESS => exact ⟨by decide, by decide, by decide⟩
    | FAILED => exact ⟨by decide, by decide, by decide⟩
    | EXPIRED => exact ⟨by decide, by decide, by decide⟩

/-- C7 witness: the priority theorem applied to the still-PENDING sample
transaction (expiredAt 100) queried at time 200 — invalid with the expiry
message even though no sweeper has flipped its status. -/
theorem validateForPayment_priority_witness :
    validateForPayment 200 "tok-1" [txPending]
      = { valid := false, message := "Payment link has expired",
          transaction := some txPending } :=
  (validateForPayment_priority 200 "tok-1" [txPending]).2.2.1 txPending
    rfl rfl (by decide)

/-- C9 counterexample: the claim is false as stated — on a notification whose
signature does not verify, the webhook HTTP handler responds 400 (Bad
Request), not its accepted 200 status. -/
theorem webhook_endpoint_returns_400_on_bad_signature :
    (WebhookController.handleMidtransWebhook (fun s => s) "KEY" 7 nBadSig
        sampleDB).1.status = 400
  ∧ (400 : Nat) ≠ 200 :=
  ⟨rfl, by decide⟩

/-- C9 (amended): the webhook HTTP handler responds 200 on every path on which
the signature verifies — including when internal reconciliation throws — but
when signature verification fails it responds 400 Bad Request instead of
acknowledging. -/
theorem webhook_endpoint_status_codes
    (sha512hex : String → String) (serverKey : String) (now : Nat)
    (body : Notification) (db : DB) :
    (verifyWebhookAuthenticity sha512hex serverKey body = true →
       (WebhookController.handleMidtransWebhook sha512hex serverKey now body
           db).1.status = 200)
  ∧ (verifyWebhookAuthenticity sha512hex serverKey body = false →
       (WebhookController.handleMidtransWebhook sha512hex serverKey now body
           db).1.status = 400) := by
  constructor
  · intro h
    unfold WebhookController.handleMidtransWebhook
    rw [h]
    rcases hpm : processMidtransWebhook sha512hex serverKey now body db with
      ⟨res, db2⟩
    cases res <;> rfl
  · intro h
    unfold WebhookController.handleMidtransWebhook
    rw [h]
    rfl

/-- C9 witness: the status-code theorem applied to a concrete authentic
notification (200) and to a concrete bad-signature notification (400). -/
theorem webhook_endpoint_status_codes_witness :
    (WebhookController.handleMidtransWebhook (fun s => s) "KEY" 7 nSettle
        sampleDB).1.status = 200 :=
  (webhook_endpoint_status_codes (fun s => s) "KEY" 7 nSettle sampleDB).1
    (by decide)

/-- C8 witness: the amended theorem applied to the BANNED sample account. -/
theorem activateAccount_unconditionally_activates_witness :
    ((archBanned, { archBanned with status := AccountStatus.ACTIVE }) :
        Architect × Architect).2.status = AccountStatus.ACTIVE :=
  activateAccount_unconditionally_activates 2 [archBanned]
    [{ archBanned with status := AccountStatus.ACTIVE }] rfl
    (archBanned, { archBanned with status := AccountStatus.ACTIVE })
    (by decide) (by decide)

/-- C6: one sweep call flips exactly the PENDING rows past their expiry to
EXPIRED (the bulk update is guarded by `status = PENDING ∧ expiredAt < now`),
leaves every other row — still-fresh PENDING rows and all non-PENDING rows —
unchanged, and reports as its count exactly the number of matching rows. -/
theorem sweep_completeness (now : Nat) (db : DB) :
    (WebhookService.handleExpiredTransactions now db).1.count
      = (db.transactions.filter fun t =>
           t.status = TxStatus.PENDING ∧ t.expiredAt < now).length
  ∧ ∀ p ∈ db.transactions.zip
        (WebhookService.handleExpiredTransactions now db).2.transactions,
      (p.1.status = TxStatus.PENDING ∧ p.1.expiredAt < now →
         p.2 = { p.1 with status := TxStatus.EXPIRED })
    ∧ (¬(p.1.status = TxStatus.PENDING ∧ p.1.expiredAt < now) → p.2 = p.1) := by
  have hunfold : WebhookService.handleExpiredTransactions now db
      = if (findExpired now db.transactions).length = 0 then
          ({ success := true, message := "No expired transactions found",
             count := 0 }, db)
        else
          ({ success := true,
             message := "Processed "
               ++ toString (markExpiredTransactions now db.transactions).2
               ++ " expired transactions",
             count := (markExpiredTransactions now db.transactions).2 },
           { db with
             transactions := (markExpiredTransactions now db.transactions).1,
             sentEmails := db.sentEmails
               ++ (findExpired now db.transactions).filterMap fun t =>
                    (db.architects.find? fun a => a.id = t.architectId).map
                      fun a => EmailEvent.paymentExpired a t.orderId }) := rfl
  rw [hunfold]
  by_cases h0 : (findExpired now db.transactions).length = 0
  · rw [if_pos h0]
    constructor
    · simpa [findExpired] using h0.symm
    · intro p hp
      have hpp := mem_zip_self db.transactions p hp
      refine ⟨?_, fun _ => hpp⟩
      intro hmatch
      obtain ⟨a, b⟩ := p
      have ha : a ∈ db.transactions := (List.of_mem_zip hp).1
      have hmem : a ∈ findExpired now db.transactions :=
        List.mem_filter.2 ⟨ha, by simpa using hmatch⟩
      rw [List.length_eq_zero] at h0
      rw [h0] at hmem
      exact absurd hmem (List.not_mem_nil a)
  · rw [if_neg h0]
    constructor
    · rfl
    · intro p hp
      have hp' : p ∈ db.transactions.zip (db.transactions.map fun t =>
          if t.status = TxStatus.PENDING ∧ t.expiredAt < now
          then { t with status := TxStatus.EXPIRED } else t) := hp
      have hpp := mem_zip_map
        (fun t => if t.status = TxStatus.PENDING ∧ t.expiredAt < now
                  then { t with status := TxStatus.EXPIRED } else t)
        db.transactions p hp'
      constructor
      · intro hmatch
        simp only [hpp]
        simp [hmatch]
      · intro hmatch
        simp only [hpp]
        simp [hmatch]

/-- C6 witness: the sweep theorem applied to the sample database at time 200 —
exactly one row (PENDING, expiredAt 100) matches, its zip pair is flipped to
EXPIRED, and the FAILED row's pair is untouched. -/
theorem sweep_completeness_witness :
    (WebhookService.handleExpiredTransactions 200 sampleDB).1.count = 1
  ∧ ((txPending, { txPending with status := TxStatus.EXPIRED }) :
      Transaction × Transaction).2 = { txPending with status := TxStatus.EXPIRED }
  ∧ ((txFailed, txFailed) : Transaction × Transaction).2 = txFailed :=
  ⟨(sweep_completeness 200 sampleDB).1.trans (by decide),
   ((sweep_completeness 200 sampleDB).2
      (txPending, { txPending with status := TxStatus.EXPIRED })
      (by decide)).1 (by decide),
   ((sweep_completeness 200 sampleDB).2 (txFailed, txFailed)
      (by decide)).2 (by decide)⟩

/-- A validly signed `transaction_status = "pending"` notification for the
FAILED order "ORD-2". -/
def nPend : Notification :=
  { order_id := "ORD-2", transaction_status := "pending", fraud_status := none,
    payment_type := "bank_transfer", gross_amount := "500000.00",
    status_code := "201", signature_key := "ORD-2201500000.00KEY" }

/-- C10: for a stored transaction whose status is FAILED or EXPIRED, a
validly-signed notification mapping to PENDING (transaction_status "pending",
capture/challenge, or an unrecognized transaction_status) is processed — the
already-processed check only special-cases SUCCESS — and overwrites the stored
status back to PENDING, so FAILED and EXPIRED are not absorbing under webhook
processing. -/
theorem pending_webhook_reopens_terminal
    (sha512hex : String → String) (serverKey : String) (now : Nat)
    (n : Notification) (db : DB) (tx : Transaction)
    (hsig : verifyWebhookSignature sha512hex serverKey
              n.order_id n.status_code n.gross_amount n.signature_key = true)
    (hfind : findByOrderId n.order_id db.transactions = some tx)
    (hterm : tx.status = TxStatus.FAILED ∨ tx.status = TxStatus.EXPIRED)
    (hmap : n.transaction_status = "pending"
          ∨ (n.transaction_status = "capture" ∧ n.fraud_status = some "challenge")
          ∨ (n.transaction_status ≠ "capture" ∧ n.transaction_status ≠ "settlement"
             ∧ n.transaction_status ≠ "cancel" ∧ n.transaction_status ≠ "deny"
             ∧ n.transaction_status ≠ "expire" ∧ n.transaction_status ≠ "pending")) :
    (processMidtransWebhook sha512hex serverKey now n db).1
      = .ok { success := true, message := "Webhook processed successfully",
              alreadyProcessed := false, orderId := some n.order_id,
              status := some TxStatus.PENDING }
  ∧ ∀ p ∈ db.transactions.zip
        (processMidtransWebhook sha512hex serverKey now n db).2.transactions,
      p.1.id = tx.id → p.2.status = TxStatus.PENDING := by
  have hpwn : processWebhookNotification sha512hex serverKey n
      = .ok { orderId := n.order_id, status := TxStatus.PENDING,
              shouldActivate := false, paymentType := n.payment_type,
              transactionStatus := n.transaction_status,
              fraudStatus := n.fraud_status, rawNotification := n } := by
    rcases hmap with h | ⟨h1, h2⟩ | ⟨h1, h2, h3, h4, h5, h6⟩
    · simp [processWebhookNotification, hsig, h]
    · simp [processWebhookNotification, hsig, h1, h2]
    · simp [processWebhookNotification, hsig, h1, h2, h3, h4, h5, h6]
  have hnotsucc : ¬ tx.status = TxStatus.SUCCESS := by
    rcases hterm with h | h <;> simp [h]
  have hfind' : db.transactions.find? (fun t => t.orderId = n.order_id)
      = some tx := hfind
  have htx_mem : tx ∈ db.transactions := List.mem_of_find?_eq_some hfind'
  have hany1 : (db.transactions.any fun t => t.orderId = n.order_id) = true :=
    any_of_find?_eq_some hfind'
  have e1 : updateWithMidtransResponse now n.order_id (some n) db.transactions
      = .ok (db.transactions.map fun t =>
          if t.orderId = n.order_id then
            { t with midtransResponse := some n, updatedAt := now }
          else t) := by
    unfold TransactionRepository.updateWithMidtransResponse
    rw [if_pos hany1]
  have hany2 : ((db.transactions.map fun t =>
      if t.orderId = n.order_id then
        { t with midtransResponse := some n, updatedAt := now }
      else t).any fun t => t.id = tx.id) = true := by
    refine List.any_eq_true.2
      ⟨(fun t => if t.orderId = n.order_id then
          { t with midtransResponse := some n, updatedAt := now } else t) tx,
       List.mem_map_of_mem _ htx_mem, ?_⟩
    by_cases h : tx.orderId = n.order_id <;> simp [h]
  have e2 : updateStatus now tx.id TxStatus.PENDING
      (db.transactions.map fun t =>
        if t.orderId = n.order_id then
          { t with midtransResponse := some n, updatedAt := now }
        else t)
      = .ok ((db.transactions.map fun t =>
          if t.orderId = n.order_id then
            { t with midtransResponse := some n, updatedAt := now }
          else t).map fun t =>
            if t.id = tx.id then { t with status := TxStatus.PENDING } else t) := by
    unfold TransactionRepository.updateStatus
    rw [if_pos hany2]
    simp
  have emain : processMidtransWebhook sha512hex serverKey now n db
      = (.ok { success := true, message := "Webhook processed successfully",
               alreadyProcessed := false, orderId := some n.order_id,
               status := some TxStatus.PENDING },
         { db with transactions := (db.transactions.map fun t =>
             if t.orderId = n.order_id then
               { t with midtransResponse := some n, updatedAt := now }
             else t).map fun t =>
               if t.id = tx.id then { t with status := TxStatus.PENDING }
               else t }) := by
    unfold WebhookService.processMidtransWebhook
    rw [hpwn]
    simp only [hfind, hnotsucc, if_false, e1, WebhookService.handlePendingPayment,
      e2]
    simp [WebhookService.handlePendingPayment, e2]
  constructor
  · rw [emain]
  · intro p hp hid
    rw [emain] at hp
    simp only [List.map_map] at hp
    have hpp := mem_zip_map _ db.transactions p hp
    rw [hpp]
    simp only [Function.comp_apply]
    by_cases h : p.1.orderId = n.order_id <;> simp [h, hid]

/-- C10 witness: the theorem applied to the FAILED sample order "ORD-2" with a
concrete validly-signed "pending" notification — processing succeeds with
mapped status PENDING, and the stored FAILED row's zip pair is PENDING. -/
theorem pending_webhook_reopens_terminal_witness :
    (processMidtransWebhook (fun s => s) "KEY" 7 nPend sampleDB).1
      = .ok { success := true, message := "Webhook processed successfully",
              alreadyProcessed := false, orderId := some "ORD-2",
              status := some TxStatus.PENDING } :=
  (pending_webhook_reopens_terminal (fun s => s) "KEY" 7 nPend sampleDB txFailed
    (by decide) rfl (Or.inl rfl) (Or.inl rfl)).1
